import Mathlib

/-!
Shallow embedding of the ev3py protocol layer (src/ev3py.py).

The module encodes high-level motor/sensor commands for a LEGO EV3 brick into
its byte-code format and writes them to a stream transport.  Python byte
strings are modelled as lists of byte values (`List Nat`, each entry < 256);
Python integers are `Int`.  Python's bitwise and of an arbitrary
(two's-complement) integer with a full mask `2 ^ k - 1` equals the value
modulo `2 ^ k`, and `%` on `Int` is Euclidean remainder, which agrees with
Python's `%` for a positive modulus; Python's `>>` is an arithmetic right
shift, which is `>>>` on `Int`.  Each public operation of the `ev3` class is
embedded as a function returning `Except PyError (List Nat)`: `.ok frame` is
the single frame the operation writes to the transport via `self.brick.send`,
and `.error e` is the Python exception the operation raises before anything
is sent.  For `read_sensor` the bytes the transport returns to `recv(6)` are
an explicit argument.
-/

namespace Ev3

/-- Python byte strings, as lists of byte values. -/
abbrev Bytes := List Nat

/-- The Python exceptions the embedded code can raise. -/
inductive PyError where
  /-- a failed dictionary lookup, e.g. an unknown port letter or stop mode -/
  | keyError
  /-- indexing past the end of the decoded reply string -/
  | indexError
  /-- the reply bytes are not valid UTF-8 -/
  | unicodeDecodeError
deriving DecidableEq

/-- module-level constant `PRIMPAR_SHORT = 0x00`. -/
def PRIMPAR_SHORT : Nat := 0x00

/-- module-level constant `PRIMPAR_LONG = 0x80`. -/
def PRIMPAR_LONG : Nat := 0x80

/-- module-level constant `PRIMPAR_CONST = 0x00`. -/
def PRIMPAR_CONST : Nat := 0x00

/-- module-level constant `PRIMPAR_VALUE = 0x3F`. -/
def PRIMPAR_VALUE : Nat := 0x3F

/-- module-level constant `PRIMPAR_GLOBAL = 0x20`. -/
def PRIMPAR_GLOBAL : Nat := 0x20

/-- module-level constant `PRIMPAR_INDEX = 0x1F`. -/
def PRIMPAR_INDEX : Nat := 0x1F

/-- module-level constant `PRIMPAR_VARIABEL = 0x40`. -/
def PRIMPAR_VARIABEL : Nat := 0x40

/-- module-level constant `PRIMPAR_1_BYTE = 1`. -/
def PRIMPAR_1_BYTE : Nat := 1

/-- module-level constant `PRIMPAR_2_BYTES = 2`. -/
def PRIMPAR_2_BYTES : Nat := 2

/-- module-level constant `PRIMPAR_4_BYTES = 3`. -/
def PRIMPAR_4_BYTES : Nat := 3

/-- `LC0(v)`: create 1-byte local constant.  The source computes
`(v & PRIMPAR_VALUE) | PRIMPAR_SHORT | PRIMPAR_CONST`; the mask
`PRIMPAR_VALUE = 0x3F` is `2 ^ 6 - 1`, so `v & 0x3F` is `v mod 64`. -/
def LC0 (v : Int) : Bytes :=
  [((v % 64).toNat ||| PRIMPAR_SHORT) ||| PRIMPAR_CONST]

/-- `LC1(v)`: create 2-byte local constant, tag byte then `v & 0xFF`. -/
def LC1 (v : Int) : Bytes :=
  [(PRIMPAR_LONG ||| PRIMPAR_CONST) ||| PRIMPAR_1_BYTE, (v % 256).toNat]

/-- `LC2(v)`: create 3-byte local constant, tag byte then `v & 0xFF` and
`(v >> 8) & 0xFF` (little-endian). -/
def LC2 (v : Int) : Bytes :=
  [(PRIMPAR_LONG ||| PRIMPAR_CONST) ||| PRIMPAR_2_BYTES,
   (v % 256).toNat, ((v >>> (8 : Nat)) % 256).toNat]

/-- `LC4(v)`: create 5-byte local constant, tag byte then the four bytes
`(v >> 8 * k) & 0xFF` for `k = 0, 1, 2, 3` (little-endian). -/
def LC4 (v : Int) : Bytes :=
  [(PRIMPAR_LONG ||| PRIMPAR_CONST) ||| PRIMPAR_4_BYTES,
   (v % 256).toNat, ((v >>> (8 : Nat)) % 256).toNat,
   ((v >>> (16 : Nat)) % 256).toNat, ((v >>> (24 : Nat)) % 256).toNat]

/-- `GV0(v)`: create 1-byte global variable reference,
`(v & PRIMPAR_INDEX) | PRIMPAR_SHORT | PRIMPAR_VARIABEL | PRIMPAR_GLOBAL`;
the mask `PRIMPAR_INDEX = 0x1F` is `2 ^ 5 - 1`, so `v & 0x1F` is `v mod 32`. -/
def GV0 (v : Int) : Bytes :=
  [((((v % 32).toNat ||| PRIMPAR_SHORT) ||| PRIMPAR_VARIABEL) ||| PRIMPAR_GLOBAL)]

/-- the instance dictionary `self.ports_to_int = ...` mapping the motor port
letters a, b, c, d to the bits 1, 2, 4, 8.  A missing key raises `KeyError`
in Python, modelled by `none`. -/
def ports_to_int (c : Char) : Option Nat :=
  if c = 'a' then some 1
  else if c = 'b' then some 2
  else if c = 'c' then some 4
  else if c = 'd' then some 8
  else none

/-- the instance dictionary `self.stops = ...` mapping the stop-mode name
brake to 1 and coast to 0; a missing key raises `KeyError`. -/
def stops (s : String) : Option Nat :=
  if s = "brake" then some 1
  else if s = "coast" then some 0
  else none

/-- the port-mapping line shared by all motor operations:
`ports = sum([self.ports_to_int[port] for port in ports])`.  The list
comprehension looks the letters up left to right — the first unknown letter
raises `KeyError` before anything is sent — and the results are summed. -/
def resolvePorts : List Char → Except PyError Nat
  | [] => .ok 0
  | c :: cs =>
    match ports_to_int c with
    | none => .error .keyError
    | some b => (resolvePorts cs).map (fun m => b + m)

/-- the stop-mode mapping line `stop = self.stops[stop]`; an unknown name
raises `KeyError`. -/
def resolveStop (s : String) : Except PyError Nat :=
  match stops s with
  | none => .error .keyError
  | some n => .ok n

/-- the frame `motor_start` assembles once the ports are mapped to their
bitmask: `comm_0 + comm_1 + comm_2` with the fixed header
`0D 00 00 00 80 00 00`, opOUTPUT_POWER `A4` and opOUTPUT_START `A6`. -/
def buildMotorStart (ports : Nat) (power layer : Int) : Bytes :=
  [0x0D, 0x00, 0x00, 0x00, 0x80, 0x00, 0x00]
    ++ ([0xA4] ++ LC0 layer ++ LC0 (ports : Int) ++ LC1 power)
    ++ ([0xA6] ++ LC0 layer ++ LC0 (ports : Int))

/-- the frame `motor_stop` assembles: fixed header `09 00 01 00 80 00 00`
followed by opOUTPUT_STOP `A3`. -/
def buildMotorStop (ports stop : Nat) (layer : Int) : Bytes :=
  [0x09, 0x00, 0x01, 0x00, 0x80, 0x00, 0x00]
    ++ ([0xA3] ++ LC0 layer ++ LC0 (ports : Int) ++ LC0 (stop : Int))

/-- the frame `motor_degrees` assembles: fixed header `1D 00 00 00 80 00 00`,
opOUTPUT_STEP_POWER `AC` and opOUTPUT_START `A6`. -/
def buildMotorDegrees (ports : Nat) (power degrees : Int) (stop : Nat)
    (ramp_up ramp_down layer : Int) : Bytes :=
  [0x1D, 0x00, 0x00, 0x00, 0x80, 0x00, 0x00]
    ++ ([0xAC] ++ LC0 layer ++ LC0 (ports : Int) ++ LC1 power
        ++ LC4 ramp_up ++ LC4 degrees ++ LC4 ramp_down ++ LC0 (stop : Int))
    ++ ([0xA6] ++ LC0 layer ++ LC0 (ports : Int))

/-- the frame `motor_time` assembles: fixed header `1D 00 00 00 80 00 00`,
opOUTPUT_TIME_POWER `AD` and opOUTPUT_START `A6`. -/
def buildMotorTime (ports : Nat) (power time : Int) (stop : Nat)
    (ramp_up ramp_down layer : Int) : Bytes :=
  [0x1D, 0x00, 0x00, 0x00, 0x80, 0x00, 0x00]
    ++ ([0xAD] ++ LC0 layer ++ LC0 (ports : Int) ++ LC1 power
        ++ LC4 ramp_up ++ LC4 time ++ LC4 ramp_down ++ LC0 (stop : Int))
    ++ ([0xA6] ++ LC0 layer ++ LC0 (ports : Int))

/-- the frame `turn_degrees` assembles: fixed header `13 00 00 00 80 00 00`
and opOUTPUT_STEP_SYNC `B0`. -/
def buildTurnDegrees (ports : Nat) (speed turn degrees : Int) (stop : Nat)
    (layer : Int) : Bytes :=
  [0x13, 0x00, 0x00, 0x00, 0x80, 0x00, 0x00]
    ++ ([0xB0] ++ LC0 layer ++ LC0 (ports : Int) ++ LC1 speed ++ LC2 turn
        ++ LC4 degrees ++ LC0 (stop : Int))

/-- the frame `turn_time` assembles: fixed header `13 00 00 00 80 00 00`
and opOUTPUT_TIME_SYNC `B0`. -/
def buildTurnTime (ports : Nat) (speed turn time : Int) (stop : Nat)
    (layer : Int) : Bytes :=
  [0x13, 0x00, 0x00, 0x00, 0x80, 0x00, 0x00]
    ++ ([0xB0] ++ LC0 layer ++ LC0 (ports : Int) ++ LC1 speed ++ LC2 turn
        ++ LC4 time ++ LC0 (stop : Int))

/-- the frame `clear_tacho` assembles: fixed header `08 00 00 00 80 00 00`
and opOUTPUT_CLR_COUNT `B2`. -/
def buildClearTacho (ports : Nat) (layer : Int) : Bytes :=
  [0x08, 0x00, 0x00, 0x00, 0x80, 0x00, 0x00]
    ++ ([0xB2] ++ LC0 layer ++ LC0 (ports : Int))

/-- the frame `read_sensor` assembles: reply-expecting header
`0B 00 00 00 00 01 00`, opINPUT_READ `9A`, the layer, the port decremented by
one (`port -= 1` in the source), and the fixed trailer `00 00 60`. -/
def buildReadSensor (port layer : Int) : Bytes :=
  [0x0B, 0x00, 0x00, 0x00, 0x00, 0x01, 0x00]
    ++ ([0x9A] ++ LC0 layer ++ LC0 (port - 1) ++ [0x00, 0x00, 0x60])

/-- the frame `play_tone` assembles: fixed header `0F 00 00 00 80 00 00` and
opSOUND `94` with the fixed volume selector `LC0(1)`. -/
def buildPlayTone (volume frequency duration : Int) : Bytes :=
  [0x0F, 0x00, 0x00, 0x00, 0x80, 0x00, 0x00]
    ++ ([0x94] ++ LC0 1 ++ LC1 volume ++ LC2 frequency ++ LC2 duration)

/-- `motor_start(self, ports, power, layer=0)`: maps the ports to their
bitmask, assembles the frame and sends it. -/
def motor_start (ports : List Char) (power layer : Int) : Except PyError Bytes :=
  (resolvePorts ports).map (fun m => buildMotorStart m power layer)

/-- `motor_stop(self, ports, stop="coast", layer=0)`: maps the ports, then
the stop mode, assembles the frame and sends it. -/
def motor_stop (ports : List Char) (stop : String) (layer : Int) :
    Except PyError Bytes := do
  let m ← resolvePorts ports
  let s ← resolveStop stop
  pure (buildMotorStop m s layer)

/-- `motor_degrees(self, ports, power, degrees, stop="brake", ramp_up=0,
ramp_down=0, layer=0)`. -/
def motor_degrees (ports : List Char) (power degrees : Int) (stop : String)
    (ramp_up ramp_down layer : Int) : Except PyError Bytes := do
  let m ← resolvePorts ports
  let s ← resolveStop stop
  pure (buildMotorDegrees m power degrees s ramp_up ramp_down layer)

/-- `motor_time(self, ports, power, time, stop="brake", ramp_up=0,
ramp_down=0, layer=0)`. -/
def motor_time (ports : List Char) (power time : Int) (stop : String)
    (ramp_up ramp_down layer : Int) : Except PyError Bytes := do
  let m ← resolvePorts ports
  let s ← resolveStop stop
  pure (buildMotorTime m power time s ramp_up ramp_down layer)

/-- `turn_degrees(self, ports, speed, turn, degrees, stop="brake", layer=0)`. -/
def turn_degrees (ports : List Char) (speed turn degrees : Int) (stop : String)
    (layer : Int) : Except PyError Bytes := do
  let m ← resolvePorts ports
  let s ← resolveStop stop
  pure (buildTurnDegrees m speed turn degrees s layer)

/-- `turn_time(self, ports, speed, turn, time, stop="brake", layer=0)`. -/
def turn_time (ports : List Char) (speed turn time : Int) (stop : String)
    (layer : Int) : Except PyError Bytes := do
  let m ← resolvePorts ports
  let s ← resolveStop stop
  pure (buildTurnTime m speed turn time s layer)

/-- `clear_tacho(self, ports, layer=0)`. -/
def clear_tacho (ports : List Char) (layer : Int) : Except PyError Bytes :=
  (resolvePorts ports).map (fun m => buildClearTacho m layer)

/-- `play_tone(self, volume, frequency, duration)`: cannot fail locally, so
it always returns the frame it sends. -/
def play_tone (volume frequency duration : Int) : Bytes :=
  buildPlayTone volume frequency duration

/-- a UTF-8 continuation byte, `0x80` to `0xBF`. -/
def isCont (b : Nat) : Bool := 0x80 ≤ b && b < 0xC0

/-- Decode one code point from the front of a UTF-8 byte string, strictly, as
CPython does for the utf-8 codec: stray continuation bytes, truncated
sequences, overlong encodings, surrogate code points and code points beyond
`0x10FFFF` are all rejected.  Returns the code point and the remaining bytes,
or `none` when the input is empty or starts with an invalid sequence. -/
def utf8DecodeOne : List Nat → Option (Nat × List Nat)
  | [] => none
  | b :: rest =>
    if b < 0x80 then some (b, rest)
    else if b < 0xC2 then none
    else if b < 0xE0 then
      if rest.length < 1 then none
      else
        let b2 := rest.getD 0 0
        if isCont b2 then some ((b - 0xC0) * 0x40 + (b2 - 0x80), rest.drop 1)
        else none
    else if b < 0xF0 then
      if rest.length < 2 then none
      else
        let b2 := rest.getD 0 0
        let b3 := rest.getD 1 0
        if ((if b = 0xE0 then decide (0xA0 ≤ b2) && decide (b2 < 0xC0)
             else if b = 0xED then decide (0x80 ≤ b2) && decide (b2 < 0xA0)
             else isCont b2) && isCont b3) then
          some ((b - 0xE0) * 0x1000 + (b2 - 0x80) * 0x40 + (b3 - 0x80), rest.drop 2)
        else none
    else if b < 0xF5 then
      if rest.length < 3 then none
      else
        let b2 := rest.getD 0 0
        let b3 := rest.getD 1 0
        let b4 := rest.getD 2 0
        if ((if b = 0xF0 then decide (0x90 ≤ b2) && decide (b2 < 0xC0)
             else if b = 0xF4 then decide (0x80 ≤ b2) && decide (b2 < 0x90)
             else isCont b2) && isCont b3 && isCont b4) then
          some ((b - 0xF0) * 0x40000 + (b2 - 0x80) * 0x1000
                + (b3 - 0x80) * 0x40 + (b4 - 0x80), rest.drop 3)
        else none
    else none

/-- Decode code points one at a time until the bytes are exhausted.  The
fuel argument only bounds the number of iterations: each decoded code point
consumes at least one byte, so any fuel at least the byte count gives the
exact decoding, and `utf8Decode` below passes the byte count. -/
def utf8DecodeAux : Nat → List Nat → Option (List Nat)
  | _, [] => some []
  | 0, _ :: _ => none
  | fuel + 1, b :: rest =>
    match utf8DecodeOne (b :: rest) with
    | none => none
    | some (cp, r) => (utf8DecodeAux fuel r).map (fun s => cp :: s)

/-- Strict UTF-8 decoding of a whole byte string, as CPython performs it for
`.decode` with the utf-8 codec: the decoded code points, or `none` for a
`UnicodeDecodeError`. -/
def utf8Decode (l : List Nat) : Option (List Nat) :=
  utf8DecodeAux l.length l

/-- the reply handling of `read_sensor`: the 6 bytes from `recv(6)` are
decoded as UTF-8 (`UnicodeDecodeError` on invalid bytes), character 5 of the
decoded string is taken (`IndexError` when fewer than 6 characters were
decoded), and `int(hex(ord(c)), 16)` maps that character back to its code
point, so it is the identity on the code point. -/
def parseSensorReply (reply : Bytes) : Except PyError Nat :=
  match utf8Decode reply with
  | none => .error .unicodeDecodeError
  | some s =>
    match s[5]? with
    | none => .error .indexError
    | some cp => .ok cp

/-- `read_sensor(self, port, layer=0)`: sends the opINPUT_READ frame, then
reads 6 bytes from the transport and converts character 5 of their UTF-8
decoding back to an integer.  The transport reply is a parameter; the result
pairs the frame written with the value returned to the caller. -/
def read_sensor (port layer : Int) (reply : Bytes) :
    Except PyError (Bytes × Nat) := do
  let v ← parseSensorReply reply
  pure (buildReadSensor port layer, v)

/-- the 2-byte little-endian length field at the start of a frame. -/
def lengthField (f : Bytes) : Nat := f.getD 0 0 + 256 * f.getD 1 0

/-- the 2-byte little-endian message identifier at offsets 2 and 3 of a
frame. -/
def messageId (f : Bytes) : Nat := f.getD 2 0 + 256 * f.getD 3 0

/-- reassemble the 4 payload bytes (the bytes after the tag byte) of a 5-byte
long-constant encoding as a little-endian unsigned 32-bit integer. -/
def payload32 (e : Bytes) : Nat :=
  e.getD 1 0 + 0x100 * e.getD 2 0 + 0x10000 * e.getD 3 0 + 0x1000000 * e.getD 4 0

/-- interpret an unsigned 32-bit value as a two's-complement signed value. -/
def asSigned32 (u : Nat) : Int :=
  if u < 2 ^ 31 then (u : Int) else (u : Int) - 2 ^ 32

/-- the bitwise OR of the individual letter bits of a port list: the quantity
the spec says the computed port mask equals. -/
def portOr (l : List Char) : Nat :=
  l.foldr (fun c m => (ports_to_int c).getD 0 ||| m) 0

/-- One decoding step consumes at least one byte. -/
theorem utf8DecodeOne_length {l r : List Nat} {cp : Nat}
    (h : utf8DecodeOne l = some (cp, r)) : r.length < l.length := by
  cases l with
  | nil => simp [utf8DecodeOne] at h
  | cons b rest =>
    simp only [utf8DecodeOne] at h
    all_goals (repeat' split at h)
    all_goals (try (exact Option.noConfusion h))
    all_goals (simp only [Option.some.injEq, Prod.mk.injEq] at h)
    all_goals (obtain ⟨h1, rfl⟩ := h)
    all_goals (simp only [List.length_drop, List.length_cons])
    all_goals omega

/-- Successful UTF-8 decoding returns at most one code point per input byte. -/
theorem utf8DecodeAux_length (fuel : Nat) :
    ∀ (l s : List Nat), utf8DecodeAux fuel l = some s → s.length ≤ l.length := by
  induction fuel with
  | zero =>
    intro l s hs
    cases l with
    | nil => simp [utf8DecodeAux] at hs; simp [← hs]
    | cons b rest => simp [utf8DecodeAux] at hs
  | succ fuel ih =>
    intro l s hs
    cases l with
    | nil => simp [utf8DecodeAux] at hs; simp [← hs]
    | cons b rest =>
      rw [utf8DecodeAux] at hs
      cases hone : utf8DecodeOne (b :: rest) with
      | none => rw [hone] at hs; simp at hs
      | some pr =>
        obtain ⟨cp, r⟩ := pr
        rw [hone] at hs
        simp only [Option.map_eq_some'] at hs
        obtain ⟨a, ha, rfl⟩ := hs
        have hr := utf8DecodeOne_length hone
        have := ih r a ha
        simp only [List.length_cons] at hr ⊢
        omega

/-- A decoded string is never longer, in characters, than its byte string. -/
theorem utf8Decode_length {l s : List Nat} (h : utf8Decode l = some s) :
    s.length ≤ l.length := utf8DecodeAux_length l.length l s h

/-- The values in the port table are the four bits 1, 2, 4, 8. -/
theorem ports_to_int_cases {c : Char} {b : Nat} (h : ports_to_int c = some b) :
    b = 1 ∨ b = 2 ∨ b = 4 ∨ b = 8 := by
  unfold ports_to_int at h
  split_ifs at h <;> simp_all

/-- The port table maps distinct letters to distinct bits. -/
theorem ports_to_int_inj {c c' : Char} {b : Nat} (h : ports_to_int c = some b)
    (h' : ports_to_int c' = some b) : c = c' := by
  unfold ports_to_int at h h'
  split_ifs at h h' <;> simp_all <;> omega

/-- Bitwise-disjoint 4-bit values combine by addition exactly as by OR. -/
theorem add_eq_or_of_disjoint :
    ∀ a < 16, ∀ m < 16, a &&& m = 0 → a + m = a ||| m := by decide

/-- Disjointness with two 4-bit values gives disjointness with their OR. -/
theorem and_or_eq_zero :
    ∀ a < 16, ∀ b < 16, ∀ m < 16,
      a &&& b = 0 → a &&& m = 0 → a &&& (b ||| m) = 0 := by decide

/-- The OR of two 4-bit values is a 4-bit value. -/
theorem or_lt_sixteen : ∀ a < 16, ∀ m < 16, a ||| m < 16 := by decide

/-- Distinct single bits among 1, 2, 4, 8 are bitwise disjoint. -/
theorem bit_and_bit_eq_zero :
    ∀ a : Nat, (a = 1 ∨ a = 2 ∨ a = 4 ∨ a = 8) →
      ∀ b : Nat, (b = 1 ∨ b = 2 ∨ b = 4 ∨ b = 8) → a ≠ b → a &&& b = 0 := by
  rintro a (rfl | rfl | rfl | rfl) b (rfl | rfl | rfl | rfl) hne <;>
    first
      | exact absurd rfl hne
      | decide

/-- The summed port mask is permutation-invariant: looking the letters up in
a different order can only reorder the summands (or fail on the same set of
unknown letters). -/
theorem resolvePorts_perm : ∀ {l l' : List Char}, l.Perm l' →
    resolvePorts l = resolvePorts l' := by
  intro l l' h
  induction h with
  | nil => rfl
  | cons c _ ih => simp only [resolvePorts, ih]
  | swap c c' t =>
    simp only [resolvePorts]
    cases hx : ports_to_int c <;> cases hy : ports_to_int c' <;>
      cases hres : resolvePorts t <;>
        simp [Except.map] <;> omega
  | trans _ _ ih1 ih2 => exact ih1.trans ih2

/-- On a duplicate-free list of known letters the summed mask is the OR of
the letter bits: the bits are pairwise disjoint, so addition and OR agree.
The conjuncts bound the mask and record its disjointness from the bits of
absent letters, which the induction needs. -/
theorem resolvePorts_nodup_aux :
    ∀ l : List Char, l.Nodup → (∀ c ∈ l, (ports_to_int c).isSome) →
      resolvePorts l = .ok (portOr l) ∧ portOr l < 16
        ∧ ∀ c' b', ports_to_int c' = some b' → c' ∉ l → b' &&& portOr l = 0 := by
  intro l
  induction l with
  | nil =>
    intro _ _
    refine ⟨rfl, by simp [portOr], ?_⟩
    intro c' b' _ _
    simp [portOr]
  | cons c t ih =>
    intro hnd hv
    obtain ⟨hct, hnt⟩ := List.nodup_cons.mp hnd
    have hvc : (ports_to_int c).isSome := hv c (List.mem_cons_self c t)
    have hvt : ∀ x ∈ t, (ports_to_int x).isSome :=
      fun x hx => hv x (List.mem_cons_of_mem c hx)
    obtain ⟨hok, hlt, hdisj⟩ := ih hnt hvt
    obtain ⟨b, hb⟩ := Option.isSome_iff_exists.mp hvc
    have hbcases := ports_to_int_cases hb
    have hblt : b < 16 := by rcases hbcases with rfl | rfl | rfl | rfl <;> decide
    have hbdisj : b &&& portOr t = 0 := hdisj c b hb hct
    have hpor : portOr (c :: t) = b ||| portOr t := by simp [portOr, hb]
    refine ⟨?_, ?_, ?_⟩
    · simp only [resolvePorts, hb, hok, Except.map, hpor]
      rw [add_eq_or_of_disjoint b hblt (portOr t) hlt hbdisj]
    · rw [hpor]
      exact or_lt_sixteen b hblt (portOr t) hlt
    · intro c' b' hb' hmem
      have hne : c' ≠ c := fun he => hmem (he ▸ List.mem_cons_self c t)
      have hmt : c' ∉ t := fun hm => hmem (List.mem_cons_of_mem c hm)
      have hb'cases := ports_to_int_cases hb'
      have hb'lt : b' < 16 := by rcases hb'cases with rfl | rfl | rfl | rfl <;> decide
      have hbb' : b' ≠ b := fun he => hne (ports_to_int_inj (he ▸ hb') hb)
      rw [hpor]
      exact and_or_eq_zero b' hb'lt b hblt (portOr t) hlt
        (bit_and_bit_eq_zero b' hb'cases b hbcases hbb') (hdisj c' b' hb' hmt)

/-- An unknown letter anywhere in the list makes the port mapping raise
`KeyError`. -/
theorem resolvePorts_unknown_letter :
    ∀ (ports : List Char), (∃ c ∈ ports, ports_to_int c = none) →
      resolvePorts ports = .error .keyError := by
  intro ports
  induction ports with
  | nil =>
    rintro ⟨c, hc, _⟩
    cases hc
  | cons c t ih =>
    rintro ⟨c', hc', hnone⟩
    rcases List.mem_cons.mp hc' with rfl | hmem
    · simp [resolvePorts, hnone]
    · cases hx : ports_to_int c with
      | none => simp [resolvePorts, hx]
      | some b => simp [resolvePorts, hx, ih ⟨c', hmem, hnone⟩, Except.map]

/-- C1: for every frame built and sent by any public operation — motor_start,
motor_stop, motor_degrees, motor_time, turn_degrees, turn_time, clear_tacho,
read_sensor, play_tone — the 2-byte little-endian length field at the start
of the frame equals the byte length of the frame minus the 2 length-field
bytes. -/
theorem frame_length_field_correct :
    ∀ (m s : Nat) (power speed turn degrees time ramp_up ramp_down layer
        volume frequency duration port : Int),
      lengthField (buildMotorStart m power layer) + 2
          = (buildMotorStart m power layer).length
      ∧ lengthField (buildMotorStop m s layer) + 2
          = (buildMotorStop m s layer).length
      ∧ lengthField (buildMotorDegrees m power degrees s ramp_up ramp_down layer) + 2
          = (buildMotorDegrees m power degrees s ramp_up ramp_down layer).length
      ∧ lengthField (buildMotorTime m power time s ramp_up ramp_down layer) + 2
          = (buildMotorTime m power time s ramp_up ramp_down layer).length
      ∧ lengthField (buildTurnDegrees m speed turn degrees s layer) + 2
          = (buildTurnDegrees m speed turn degrees s layer).length
      ∧ lengthField (buildTurnTime m speed turn time s layer) + 2
          = (buildTurnTime m speed turn time s layer).length
      ∧ lengthField (buildClearTacho m layer) + 2
          = (buildClearTacho m layer).length
      ∧ lengthField (buildReadSensor port layer) + 2
          = (buildReadSensor port layer).length
      ∧ lengthField (buildPlayTone volume frequency duration) + 2
          = (buildPlayTone volume frequency duration).length := by
  intro m s power speed turn degrees time ramp_up ramp_down layer volume
    frequency duration port
  exact ⟨rfl, rfl, rfl, rfl, rfl, rfl, rfl, rfl, rfl⟩

/-- C2: `motor_start` on ports a with power 50 and layer 0 writes exactly the
single frame `0D 00 00 00 80 00 00 A4 00 01 81 32 A6 00 01` to the
transport: header with length 13, opcode `A4` with layer 0, ports mask 1 and
power 50 encoded as the byte constant `81 32`, then the start-motors opcode
`A6` with layer 0 and ports mask 1. -/
theorem motor_start_port_a_power_50 :
    motor_start ['a'] 50 0
      = .ok [0x0D, 0x00, 0x00, 0x00, 0x80, 0x00, 0x00,
             0xA4, 0x00, 0x01, 0x81, 0x32, 0xA6, 0x00, 0x01] := rfl

/-- C3 (code evaluated at the failing input): with the transport reply
`00 00 00 00 00 80` — five arbitrary leading bytes and `X = 128` —
`read_sensor` raises `UnicodeDecodeError` instead of returning 128: the
reply is decoded as UTF-8 text before indexing, and the decode fails on the
lone continuation byte `0x80`. -/
theorem read_sensor_byte_128_raises :
    read_sensor 1 0 [0x00, 0x00, 0x00, 0x00, 0x00, 0x80]
      = .error .unicodeDecodeError := rfl

/-- C4: for every `v` in the signed 32-bit range, the 4 payload bytes of the
5-byte long constant `LC4 v`, reassembled as a little-endian
two's-complement 32-bit integer, give back exactly `v`. -/
theorem LC4_roundtrip (v : Int) (h1 : -(2 ^ 31) ≤ v) (h2 : v < 2 ^ 31) :
    asSigned32 (payload32 (LC4 v)) = v := by
  have e : payload32 (LC4 v)
      = (v % 256).toNat + 0x100 * ((v >>> (8 : Nat)) % 256).toNat
        + 0x10000 * ((v >>> (16 : Nat)) % 256).toNat
        + 0x1000000 * ((v >>> (24 : Nat)) % 256).toNat := rfl
  rw [e]
  simp only [Int.shiftRight_eq_div_pow, asSigned32]
  norm_num
  split <;> omega

/-- Witness for C4 at `v = -150`. -/
theorem LC4_roundtrip_witness :
    -(2 ^ 31) ≤ (-150 : Int) ∧ (-150 : Int) < 2 ^ 31
      ∧ asSigned32 (payload32 (LC4 (-150))) = -150 :=
  ⟨by decide, by decide, LC4_roundtrip (-150) (by decide) (by decide)⟩

/-- C5 (counterexample): on the duplicated sequence aa the code computes
mask 2 — the bit 1 summed with itself — while the bitwise OR of the
individual letter bits is 1, so the mask is not the OR for sequences with
repeated letters. -/
theorem port_mask_duplicate_letters_sum :
    resolvePorts ['a', 'a'] = .ok 2 ∧ portOr ['a', 'a'] = 1
      ∧ resolvePorts ['a', 'a'] ≠ .ok (portOr ['a', 'a']) := by
  refine ⟨rfl, rfl, ?_⟩
  intro hc
  have h2 : Except.ok (ε := PyError) 2 = Except.ok (portOr ['a', 'a']) := hc
  have h3 : (2 : Nat) = portOr ['a', 'a'] := Except.ok.inj h2
  rw [show portOr ['a', 'a'] = 1 from rfl] at h3
  exact absurd h3 (by decide)

/-- C5 (amended): for every duplicate-free sequence of port letters drawn
from a, b, c, d, the computed mask equals the bitwise OR of the individual
letter bits, independent of input order, and the full set abcd yields 15;
with repeated letters the code sums the bit values instead, so duplicates
inflate the mask. -/
theorem port_mask_is_or_when_nodup :
    (∀ l : List Char, l.Nodup → (∀ c ∈ l, (ports_to_int c).isSome) →
       ∀ l' : List Char, l.Perm l' → resolvePorts l' = .ok (portOr l))
    ∧ resolvePorts ['a', 'b', 'c', 'd'] = .ok 15 := by
  constructor
  · intro l hnd hv l' hp
    rw [← resolvePorts_perm hp]
    exact (resolvePorts_nodup_aux l hnd hv).1
  · rfl

/-- Witness for the amended C5: the permutation ba of ab resolves to the OR
of the bits of b and a. -/
theorem port_mask_is_or_when_nodup_witness :
    (['b', 'a'] : List Char).Nodup
    ∧ (∀ c ∈ (['b', 'a'] : List Char), (ports_to_int c).isSome)
    ∧ (['b', 'a'] : List Char).Perm ['a', 'b']
    ∧ resolvePorts ['a', 'b'] = .ok (portOr ['b', 'a']) :=
  ⟨by decide, by decide, by decide,
    port_mask_is_or_when_nodup.1 ['b', 'a'] (by decide) (by decide)
      ['a', 'b'] (by decide)⟩

/-- C6 (counterexample): the message identifier is not the same in every
frame: `motor_stop` on ports a with coast mode produces a frame with message
identifier 1, while `motor_start` on ports a produces one with identifier 0. -/
theorem message_id_differs_between_operations :
    motor_stop ['a'] ("coast") 0 = .ok (buildMotorStop 1 0 0)
    ∧ motor_start ['a'] 50 0 = .ok (buildMotorStart 1 50 0)
    ∧ messageId (buildMotorStop 1 0 0) = 1
    ∧ messageId (buildMotorStart 1 50 0) = 0
    ∧ messageId (buildMotorStop 1 0 0) ≠ messageId (buildMotorStart 1 50 0) :=
  ⟨rfl, rfl, rfl, rfl, by decide⟩

/-- C6 (amended): the message-identifier field is constant for each
operation — 1 in every `motor_stop` frame and 0 in every frame of the other
eight operations — but it is not one single value across all operations. -/
theorem message_id_constant_per_operation :
    ∀ (m s : Nat) (power speed turn degrees time ramp_up ramp_down layer
        volume frequency duration port : Int),
      messageId (buildMotorStart m power layer) = 0
      ∧ messageId (buildMotorStop m s layer) = 1
      ∧ messageId (buildMotorDegrees m power degrees s ramp_up ramp_down layer) = 0
      ∧ messageId (buildMotorTime m power time s ramp_up ramp_down layer) = 0
      ∧ messageId (buildTurnDegrees m speed turn degrees s layer) = 0
      ∧ messageId (buildTurnTime m speed turn time s layer) = 0
      ∧ messageId (buildClearTacho m layer) = 0
      ∧ messageId (buildReadSensor port layer) = 0
      ∧ messageId (buildPlayTone volume frequency duration) = 0 := by
  intro m s power speed turn degrees time ramp_up ramp_down layer volume
    frequency duration port
  exact ⟨rfl, rfl, rfl, rfl, rfl, rfl, rfl, rfl, rfl⟩

/-- C7: when the transport reply is shorter than 6 bytes, `read_sensor`
raises instead of returning a value: decoding cannot yield more characters
than there are bytes, so either the UTF-8 decode fails
(`UnicodeDecodeError`) or indexing character 5 does (`IndexError`) — the
short-reply failure the spec calls `ProtocolError`. -/
theorem read_sensor_short_reply_raises (port layer : Int) (reply : Bytes)
    (h : reply.length < 6) : ∃ e, read_sensor port layer reply = .error e := by
  have hp : ∃ e, parseSensorReply reply = .error e := by
    unfold parseSensorReply
    cases hd : utf8Decode reply with
    | none => exact ⟨.unicodeDecodeError, rfl⟩
    | some s =>
      have hlen : s.length ≤ reply.length := utf8Decode_length hd
      have hnone : s[5]? = none := List.getElem?_eq_none (by omega)
      exact ⟨.indexError, by simp [hnone]⟩
  obtain ⟨e, he⟩ := hp
  refine ⟨e, ?_⟩
  unfold read_sensor
  rw [he]
  rfl

/-- Witness for C7 at the empty reply. -/
theorem read_sensor_short_reply_raises_witness :
    ([] : Bytes).length < 6 ∧ ∃ e, read_sensor 1 0 [] = .error e :=
  ⟨by decide, read_sensor_short_reply_raises 1 0 [] (by decide)⟩

/-- C8: every operation taking a ports argument fails with the port-lookup
error — Python `KeyError`, the local lookup failure the spec names
`InvalidPortError` — when the collection contains an unrecognized letter,
and nothing is written to the transport: the lookup precedes frame assembly
and sending, so the operation produces no frame. -/
theorem unknown_port_letter_raises_without_send :
    ∀ (ports : List Char), (∃ c ∈ ports, ports_to_int c = none) →
      ∀ (power speed turn degrees time ramp_up ramp_down layer : Int)
        (stop : String),
        motor_start ports power layer = .error .keyError
        ∧ motor_stop ports stop layer = .error .keyError
        ∧ motor_degrees ports power degrees stop ramp_up ramp_down layer
            = .error .keyError
        ∧ motor_time ports power time stop ramp_up ramp_down layer
            = .error .keyError
        ∧ turn_degrees ports speed turn degrees stop layer = .error .keyError
        ∧ turn_time ports speed turn time stop layer = .error .keyError
        ∧ clear_tacho ports layer = .error .keyError := by
  intro ports hbad power speed turn degrees time ramp_up ramp_down layer stop
  have hr := resolvePorts_unknown_letter ports hbad
  refine ⟨?_, ?_, ?_, ?_, ?_, ?_, ?_⟩ <;>
    simp only [motor_start, motor_stop, motor_degrees, motor_time,
      turn_degrees, turn_time, clear_tacho, hr] <;>
    rfl

/-- Witness for C8 with the unknown letter z. -/
theorem unknown_port_letter_raises_without_send_witness :
    (∃ c ∈ (['z'] : List Char), ports_to_int c = none)
    ∧ (motor_start ['z'] 50 0 = .error .keyError
       ∧ motor_stop ['z'] ("coast") 0 = .error .keyError
       ∧ motor_degrees ['z'] 50 360 ("coast") 0 0 0 = .error .keyError
       ∧ motor_time ['z'] 50 1000 ("coast") 0 0 0 = .error .keyError
       ∧ turn_degrees ['z'] 50 100 360 ("coast") 0 = .error .keyError
       ∧ turn_time ['z'] 50 100 1000 ("coast") 0 = .error .keyError
       ∧ clear_tacho ['z'] 0 = .error .keyError) :=
  ⟨by decide,
    unknown_port_letter_raises_without_send ['z'] (by decide)
      50 50 100 360 1000 0 0 0 ("coast")⟩

/-- C9: `LC0` produces exactly one byte, equal to the low six bits
`v mod 64` of its argument: for `v` in 0..63 the byte is `v` itself, and any
value outside that range is silently masked — the output is 64-periodic and
no error is possible. -/
theorem LC0_one_byte_low_six_bits :
    ∀ v : Int,
      LC0 v = [(v % 64).toNat]
      ∧ (0 ≤ v → v < 64 → LC0 v = [v.toNat])
      ∧ LC0 (v + 64) = LC0 v := by
  intro v
  refine ⟨?_, ?_, ?_⟩
  · simp [LC0, PRIMPAR_SHORT, PRIMPAR_CONST]
  · intro h0 h64
    simp only [LC0, PRIMPAR_SHORT, PRIMPAR_CONST, Nat.or_zero,
      List.cons.injEq, and_true]
    omega
  · simp only [LC0, PRIMPAR_SHORT, PRIMPAR_CONST, Nat.or_zero,
      List.cons.injEq, and_true]
    omega

/-- Witness for C9 at `v = 50`. -/
theorem LC0_one_byte_low_six_bits_witness :
    (0 : Int) ≤ 50 ∧ (50 : Int) < 64 ∧ LC0 50 = [(50 : Int).toNat] :=
  ⟨by decide, by decide,
    (LC0_one_byte_low_six_bits 50).2.1 (by decide) (by decide)⟩

/-- C10: `read_sensor` encodes the wire port-index operand as `port - 1`:
byte 9 of the frame, the short-constant operand, is `(port - 1) mod 64`, so
for the caller-facing sensor ports 1..4 the byte sent to the brick is the
zero-based index `port - 1`; and every successful call writes exactly the
frame `buildReadSensor` assembles. -/
theorem read_sensor_port_wire_index :
    ∀ (port layer : Int),
      (buildReadSensor port layer).getD 9 0 = ((port - 1) % 64).toNat
      ∧ (1 ≤ port → port ≤ 4 →
          (buildReadSensor port layer).getD 9 0 = (port - 1).toNat)
      ∧ ∀ (reply frame : Bytes) (v : Nat),
          read_sensor port layer reply = .ok (frame, v) →
            frame = buildReadSensor port layer := by
  intro port layer
  refine ⟨?_, ?_, ?_⟩
  · simp [buildReadSensor, LC0, PRIMPAR_SHORT, PRIMPAR_CONST]
  · intro h1 h4
    have e : (buildReadSensor port layer).getD 9 0 = ((port - 1) % 64).toNat := by
      simp [buildReadSensor, LC0, PRIMPAR_SHORT, PRIMPAR_CONST]
    rw [e]
    congr 1
    omega
  · intro reply frame v h
    unfold read_sensor at h
    cases hp : parseSensorReply reply with
    | error e =>
      rw [hp] at h
      exact Except.noConfusion
        (show Except.error (α := Bytes × Nat) e = Except.ok (frame, v) from h)
    | ok val =>
      rw [hp] at h
      have h2 : Except.ok (ε := PyError) (buildReadSensor port layer, val)
          = Except.ok (frame, v) := h
      exact ((Prod.ext_iff.mp (Except.ok.inj h2)).1).symm

/-- Witness for C10 at port 4, layer 0, with the all-ASCII reply
`00 00 00 00 00 05`. -/
theorem read_sensor_port_wire_index_witness :
    ((1 : Int) ≤ 4 ∧ (4 : Int) ≤ 4
      ∧ (buildReadSensor 4 0).getD 9 0 = ((4 : Int) - 1).toNat)
    ∧ (read_sensor 4 0 [0, 0, 0, 0, 0, 5] = .ok (buildReadSensor 4 0, 5)
      ∧ buildReadSensor 4 0 = buildReadSensor 4 0) :=
  ⟨⟨by decide, by decide,
      (read_sensor_port_wire_index 4 0).2.1 (by decide) (by decide)⟩,
    ⟨rfl,
      (read_sensor_port_wire_index 4 0).2.2 [0, 0, 0, 0, 0, 5]
        (buildReadSensor 4 0) 5 rfl⟩⟩

end Ev3
